import Mathlib

/-!
# Verification of the pharmacy analytics dashboard core

A shallow embedding, in Lean 4, of the data-loading, filtering, aggregation,
segmentation and forecast-training logic of `pharmacy_dashboard.py`, together
with theorems settling the frozen claims about that program.

Modelling conventions:
* calendar dates are proleptic-Gregorian day numbers (`ℤ`, epoch 1970-01-01),
  exactly the arithmetic `datetime.date` uses; `civilFromDays`/`daysFromCivil`
  are the standard civil-calendar conversions;
* currency amounts are `ℚ`; a pandas cell that may be missing is `Option ℚ`
  and `fillna` realises `.fillna(0)`;
* a float division whose denominator is zero yields NaN/Inf in numpy; such a
  result is modelled as `none : Option ℚ`, a defined value as `some q`;
* a pandas table is a `List` of records, in row order; boolean-mask filtering
  is `List.filter`; positional (RangeIndex) alignment is structural recursion
  over the lists;
* Python code that can raise is embedded in `Except String`.
-/

namespace Pharmacy

/-! ## Civil calendar arithmetic (the model of `datetime.date`) -/

/-- Day number (epoch 1970-01-01) of the civil date `y-m-d`,
by the standard civil-from-days algorithm (truncating integer division). -/
def daysFromCivil (y m d : ℤ) : ℤ :=
  let y2 := if m ≤ 2 then y - 1 else y
  let era := (if 0 ≤ y2 then y2 else y2 - 399).tdiv 400
  let yoe := y2 - era * 400
  let mp := if 2 < m then m - 3 else m + 9
  let doy := (153 * mp + 2).tdiv 5 + d - 1
  let doe := yoe * 365 + yoe.tdiv 4 - yoe.tdiv 100 + doy
  era * 146097 + doe - 719468

/-- Civil date `(y, m, d)` of a day number (epoch 1970-01-01). -/
def civilFromDays (z : ℤ) : ℤ × ℤ × ℤ :=
  let z2 := z + 719468
  let era := (if 0 ≤ z2 then z2 else z2 - 146096).tdiv 146097
  let doe := z2 - era * 146097
  let yoe := (doe - doe.tdiv 1460 + doe.tdiv 2920 - doe.tdiv 146096).tdiv 365
  let y := yoe + era * 400
  let doy := doe - (365 * yoe + yoe.tdiv 4 - yoe.tdiv 100)
  let mp := (5 * doy + 2).tdiv 153
  let d := doy - (153 * mp + 2).tdiv 5 + 1
  let m := if mp < 10 then mp + 3 else mp - 9
  (if m ≤ 2 then y + 1 else y, m, d)

/-- Calendar month (1..12) of a day number: the model of `.dt.month` /
`date.month`. -/
def dateMonth (z : ℤ) : ℤ := (civilFromDays z).2.1

/-- Calendar year of a day number: the model of `date.year`. -/
def dateYear (z : ℤ) : ℤ := (civilFromDays z).1

/-! ## Raw workbook cells and the data model -/

/-- The raw `Date` cell of a spreadsheet row as `pd.to_datetime(_, errors='coerce')`
sees it: a null cell, a value that parses to a calendar day, or a non-null value
that fails to parse. -/
inductive RawDate
  | null
  | valid (day : ℤ)
  | invalid
  deriving DecidableEq

/-- `pd.to_datetime(x, errors='coerce')` on one cell: `NaT` (here `none`) for a
null or unparseable value, the day number otherwise. -/
def parseDate : RawDate → Option ℤ
  | .null => none
  | .valid d => some d
  | .invalid => none

/-- `.fillna(0)` on one numeric cell. -/
def fillna (x : Option ℚ) : ℚ := x.getD 0

/-- A raw `Daily Income` sheet row (numeric cells possibly missing). -/
structure RawDailyRow where
  rawDate : RawDate
  total : Option ℚ
  cash : Option ℚ
  visa : Option ℚ
  dueAmount : Option ℚ
  grossIncomeSys : Option ℚ
  deriving DecidableEq

/-- A raw `Expenses` sheet row. -/
structure RawExpenseRow where
  rawDate : RawDate
  expenseType : String
  expenseAmount : Option ℚ
  deriving DecidableEq

/-- A raw `Inventory Purchases` sheet row. -/
structure RawInventoryRow where
  rawDate : RawDate
  invoiceCompany : String
  inventoryType : String
  invoiceAmount : Option ℚ
  creditLimit : Option ℚ
  deriving DecidableEq

/-- A `Daily Income` row after `load_data`: the original `Date` cell is kept,
the coerced `date` column may be `NaT` (`none`), numeric cells are zero-filled,
and the derived `net_income`/`deficit` columns are attached.  `net_income` is
`none` exactly when pandas index alignment found no partner row (NaN). -/
structure LoadedDailyRow where
  rawDate : RawDate
  date : Option ℤ
  total : ℚ
  cash : ℚ
  visa : ℚ
  dueAmount : ℚ
  grossIncomeSys : ℚ
  net_income : Option ℚ
  deficit : ℚ
  deriving DecidableEq

/-- An `Expenses` row after `load_data`. -/
structure LoadedExpenseRow where
  rawDate : RawDate
  date : Option ℤ
  expenseType : String
  expenseAmount : ℚ
  deriving DecidableEq

/-- An `Inventory Purchases` row after `load_data`. -/
structure LoadedInventoryRow where
  rawDate : RawDate
  date : Option ℤ
  invoiceCompany : String
  inventoryType : String
  invoiceAmount : ℚ
  creditLimit : ℚ
  deriving DecidableEq

/-! ## `load_data`: date coercion, zero-fill, derived columns, row dropping -/

/-- One `Daily Income` row of the preprocessing in `load_data`: the coerced
`date` column, `.fillna(0)` on the numeric columns, and the derived columns

  `net_income = Total - Expense Amount - Invoice Amount`
  `deficit    = Total - Gross Income_sys`

where the expense/invoice amounts come from the positionally aligned rows
(`e?`, `v?`) of the other two sheets; a missing partner row makes the pandas
Series subtraction produce NaN (`none`). -/
def deriveRow (r : RawDailyRow) (e? : Option RawExpenseRow) (v? : Option RawInventoryRow) :
    LoadedDailyRow :=
  { rawDate := r.rawDate
    date := parseDate r.rawDate
    total := fillna r.total
    cash := fillna r.cash
    visa := fillna r.visa
    dueAmount := fillna r.dueAmount
    grossIncomeSys := fillna r.grossIncomeSys
    net_income :=
      match e?, v? with
      | some e, some v =>
          some (fillna r.total - fillna e.expenseAmount - fillna v.invoiceAmount)
      | _, _ => none
    deficit := fillna r.total - fillna r.grossIncomeSys }

/-- The `Daily Income` sheet after preprocessing and the derived-column
assignments of `load_data` (lines 76-87 of the source): pandas aligns the
three sheets' default `RangeIndex`es, i.e. positionally. -/
def deriveDaily : List RawDailyRow → List RawExpenseRow → List RawInventoryRow →
    List LoadedDailyRow
  | [], _, _ => []
  | r :: rs, es, vs => deriveRow r es.head? vs.head? :: deriveDaily rs es.tail vs.tail

/-- The `Daily Income` table returned by `load_data`: derived columns are
computed first, then `dropna(subset=["Date"])` removes the rows whose
original `Date` cell is null. -/
def loadDailyIncome (d : List RawDailyRow) (e : List RawExpenseRow)
    (v : List RawInventoryRow) : List LoadedDailyRow :=
  (deriveDaily d e v).filter fun r => !(r.rawDate == RawDate.null)

/-- The `Expenses` table returned by `load_data`. -/
def loadExpenses (e : List RawExpenseRow) : List LoadedExpenseRow :=
  (e.map fun r =>
    { rawDate := r.rawDate
      date := parseDate r.rawDate
      expenseType := r.expenseType
      expenseAmount := fillna r.expenseAmount }).filter fun r => !(r.rawDate == RawDate.null)

/-- The `Inventory Purchases` table returned by `load_data`. -/
def loadInventoryPurchases (v : List RawInventoryRow) : List LoadedInventoryRow :=
  (v.map fun r =>
    { rawDate := r.rawDate
      date := parseDate r.rawDate
      invoiceCompany := r.invoiceCompany
      inventoryType := r.inventoryType
      invoiceAmount := fillna r.invoiceAmount
      creditLimit := fillna r.creditLimit }).filter fun r => !(r.rawDate == RawDate.null)

/-! ## Column-name normalization (`load_data`, lines 70-73) -/

/-- Python `str.strip()` whitespace predicate (ASCII whitespace suffices for
the workbook's column names). -/
def isSpaceChar (c : Char) : Bool := c == ' ' || c == '\t' || c == '\n' || c == '\r'

/-- Python `str.strip()`. -/
def pyStrip (s : String) : String :=
  ⟨((s.data.dropWhile isSpaceChar).reverse.dropWhile isSpaceChar).reverse⟩

/-- Python `str.lower()`. -/
def pyLower (s : String) : String := ⟨s.data.map Char.toLower⟩

/-- `lists_df.columns = lists_df.columns.str.strip().str.lower()`. -/
def normalize_lists_columns (cols : List String) : List String :=
  (cols.map pyStrip).map pyLower

/-- `inventory_purchases_df.columns = inventory_purchases_df.columns.str.strip()`. -/
def normalize_inventory_columns (cols : List String) : List String :=
  cols.map pyStrip

/-- `expenses_df.columns = expenses_df.columns.str.strip()`. -/
def normalize_expenses_columns (cols : List String) : List String :=
  cols.map pyStrip

/-- The daily-income sheet's column names are not touched by `load_data`. -/
def normalize_daily_income_columns (cols : List String) : List String := cols

/-- Column normalization as the spec's words describe it for the reference,
inventory-purchases and expenses sheets: whitespace-trim plus case-fold.
Stated from the spec, for comparison against the source's functions. -/
def spec_normalize_columns (cols : List String) : List String :=
  cols.map fun c => pyLower (pyStrip c)

/-! ## Filter engine (sidebar filters, lines 110-213) -/

/-- The three filtered transactional tables (`filtered_data`). -/
structure FilteredView where
  daily_income : List LoadedDailyRow
  inventory : List LoadedInventoryRow
  expenses : List LoadedExpenseRow
  deriving DecidableEq

/-- The combined boolean mask of the month branch (source lines 152-170):
`(date.dt.month == month_number) & (date.dt.date >= start) & (date.dt.date <= end)`.
A `NaT` date compares false in every conjunct. -/
def filterByMonthAndRange {α : Type} (m s e : ℤ) (dateOf : α → Option ℤ)
    (t : List α) : List α :=
  t.filter fun r =>
    match dateOf r with
    | some d => decide (dateMonth d = m) && decide (s ≤ d) && decide (d ≤ e)
    | none => false

/-- The boolean mask of the no-month branch (source lines 171-185):
`(date.dt.date >= start) & (date.dt.date <= end)`. -/
def filterByRange {α : Type} (s e : ℤ) (dateOf : α → Option ℤ) (t : List α) : List α :=
  t.filter fun r =>
    match dateOf r with
    | some d => decide (s ≤ d) && decide (d ≤ e)
    | none => false

/-- `filtered_data` when a month is selected (source lines 152-170). -/
def monthFilteredData (m s e : ℤ) (daily : List LoadedDailyRow)
    (inv : List LoadedInventoryRow) (exps : List LoadedExpenseRow) : FilteredView :=
  { daily_income := filterByMonthAndRange m s e (fun r => r.date) daily
    inventory := filterByMonthAndRange m s e (fun r => r.date) inv
    expenses := filterByMonthAndRange m s e (fun r => r.date) exps }

/-- `filtered_data` when no month is selected (source lines 171-185). -/
def rangeFilteredData (s e : ℤ) (daily : List LoadedDailyRow)
    (inv : List LoadedInventoryRow) (exps : List LoadedExpenseRow) : FilteredView :=
  { daily_income := filterByRange s e (fun r => r.date) daily
    inventory := filterByRange s e (fun r => r.date) inv
    expenses := filterByRange s e (fun r => r.date) exps }

/-- The named date presets of the sidebar selectbox (the `Custom` entry takes
its range from a date-picker widget and is outside the preset dictionary). -/
inductive DatePreset
  | last7Days
  | last30Days
  | last90Days
  | yearToDate
  | allTime
  deriving DecidableEq

/-- The non-null entries of the loaded daily-income `date` column
(pandas `.max()`/`.min()` skip `NaT`). -/
def dateColumn (rows : List LoadedDailyRow) : List ℤ :=
  rows.filterMap fun r => r.date

/-- Preset resolution (source lines 134-142): the window's end is
`data["daily_income"]["date"].max().date()` and the start comes from the
preset dictionary.  Returns `(start, end)`. -/
def resolveDatePreset (p : DatePreset) (rows : List LoadedDailyRow) : ℤ × ℤ :=
  let ds := dateColumn rows
  let endDay := ds.max?.getD 0
  let startDay :=
    match p with
    | .last7Days => endDay - 7
    | .last30Days => endDay - 30
    | .last90Days => endDay - 90
    | .yearToDate => daysFromCivil (dateYear endDay) 1 1
    | .allTime => ds.min?.getD 0
  (startDay, endDay)

/-- The sidebar category filters (source lines 199-213): each selectbox value
is `"All"` (here `none`) or a category string; the inventory-type and company
filters reassign only `filtered_data["inventory"]`, the expense-type filter
reassigns only `filtered_data["expenses"]`. -/
def applyCategoryFilters (selectedType selectedCompany selectedExpense : Option String)
    (fd : FilteredView) : FilteredView :=
  let fd1 :=
    match selectedType with
    | some t => { fd with inventory := fd.inventory.filter fun r => r.inventoryType == t }
    | none => fd
  let fd2 :=
    match selectedCompany with
    | some c => { fd1 with inventory := fd1.inventory.filter fun r => r.invoiceCompany == c }
    | none => fd1
  match selectedExpense with
  | some x => { fd2 with expenses := fd2.expenses.filter fun r => r.expenseType == x }
  | none => fd2

/-! ## Overview-tab KPIs (source lines 233-368) -/

/-- `total_income` (source lines 234-239, with the empty-table guard). -/
def total_income (v : FilteredView) : ℚ :=
  if !v.daily_income.isEmpty then (v.daily_income.map fun r => r.total).sum else 0

/-- `total_expenses` (source lines 241-244). -/
def total_expenses (v : FilteredView) : ℚ :=
  if !v.expenses.isEmpty then (v.expenses.map fun r => r.expenseAmount).sum else 0

/-- `total_purchases` (source lines 246-249). -/
def total_purchases (v : FilteredView) : ℚ :=
  if !v.inventory.isEmpty then (v.inventory.map fun r => r.invoiceAmount).sum else 0

/-- `net_profit = total_income - total_expenses - total_purchases` (line 251). -/
def net_profit (v : FilteredView) : ℚ :=
  total_income v - total_expenses v - total_purchases v

/-- `money_deficit` (line 252). -/
def money_deficit (v : FilteredView) : ℚ :=
  if !v.daily_income.isEmpty then (v.daily_income.map fun r => r.deficit).sum else 0

/-- The guarded "% of Revenue" delta of the Total Expenses metric (line 262):
`total_expenses/total_income*100 if total_income > 0 else 0`. -/
def expenses_pct_of_revenue (v : FilteredView) : ℚ :=
  if 0 < total_income v then total_expenses v / total_income v * 100 else 0

/-- The guarded "% of Revenue" delta of the Total Purchases metric (line 265). -/
def purchases_pct_of_revenue (v : FilteredView) : ℚ :=
  if 0 < total_income v then total_purchases v / total_income v * 100 else 0

/-- The guarded "% Margin" delta of the Net Profit metric (line 268). -/
def net_profit_margin_pct (v : FilteredView) : ℚ :=
  if 0 < total_income v then net_profit v / total_income v * 100 else 0

/-- The guarded "% of Revenue" delta of the Money Deficit metric (line 271). -/
def money_deficit_pct (v : FilteredView) : ℚ :=
  if 0 < total_income v then money_deficit v / total_income v * 100 else 0

/-- `profit_margin` of the health gauges (line 307, guarded). -/
def profit_margin (v : FilteredView) : ℚ :=
  if 0 < total_income v then net_profit v / total_income v * 100 else 0

/-- `expense_ratio` (line 329, guarded). -/
def expense_ratio (v : FilteredView) : ℚ :=
  if 0 < total_income v then total_expenses v / total_income v * 100 else 0

/-- `purchase_to_income_ratio` (line 351, guarded). -/
def purchase_to_income_ratio (v : FilteredView) : ℚ :=
  if 0 < total_income v then total_purchases v / total_income v * 100 else 0

/-- `total_cash` (line 279, no emptiness guard: sum of an empty column is 0). -/
def total_cash (v : FilteredView) : ℚ := (v.daily_income.map fun r => r.cash).sum

/-- `total_visa` (line 280). -/
def total_visa (v : FilteredView) : ℚ := (v.daily_income.map fun r => r.visa).sum

/-- `total_due` (line 281). -/
def total_due (v : FilteredView) : ℚ := (v.daily_income.map fun r => r.dueAmount).sum

/-- `Gross Income_sys` column sum (line 296). -/
def gross_income_sys_sum (v : FilteredView) : ℚ :=
  (v.daily_income.map fun r => r.grossIncomeSys).sum

/-- A numpy float division: defined when the denominator is non-zero, NaN/Inf
(modelled `none`) when it is zero. -/
def pyDiv (a b : ℚ) : Option ℚ := if b = 0 then none else some (a / b)

/-- The unguarded "% of Revenue" delta of Cash Payments (line 285):
`total_cash/total_income*100` with no zero guard. -/
def cash_pct_overview (v : FilteredView) : Option ℚ :=
  (pyDiv (total_cash v) (total_income v)).map fun q => q * 100

/-- The unguarded "% of Revenue" delta of Visa Payments (line 289). -/
def visa_pct_overview (v : FilteredView) : Option ℚ :=
  (pyDiv (total_visa v) (total_income v)).map fun q => q * 100

/-- The unguarded "% of Revenue" delta of Due Amounts (line 293). -/
def due_pct_overview (v : FilteredView) : Option ℚ :=
  (pyDiv (total_due v) (total_income v)).map fun q => q * 100

/-- The unguarded percentage delta of System Income (line 297). -/
def sys_income_pct_overview (v : FilteredView) : Option ℚ :=
  (pyDiv (gross_income_sys_sum v) (total_income v)).map fun q => q * 100

/-! ## Health-status classification (critical KPI notices, lines 372-427) -/

inductive HealthStatus
  | healthy
  | warning
  | critical
  deriving DecidableEq

/-- Profit-margin notice (lines 379-393). -/
def profit_margin_status (m : ℚ) : HealthStatus :=
  if m < 20 then .critical else if m < 50 then .warning else .healthy

/-- Expense-ratio notice (lines 396-410). -/
def expense_ratio_status (r : ℚ) : HealthStatus :=
  if 50 < r then .critical else if 30 < r then .warning else .healthy

/-- Purchase-to-income-ratio notice (lines 413-427; note the middle branch of
this rule is `healthy`, unlike the other two). -/
def purchase_ratio_status (r : ℚ) : HealthStatus :=
  if 60 < r then .critical else if 40 < r then .healthy else .warning

/-- Profit-margin entry of the `kpi_metrics` export `Status` column (line 729):
`'Healthy' if profit_margin >= 30 else 'Needs Improvement' if profit_margin >= 15
else 'Critical'` — different thresholds from the notice rule. -/
def export_profit_margin_status (m : ℚ) : String :=
  if 30 ≤ m then "Healthy" else if 15 ≤ m then "Needs Improvement" else "Critical"

/-- Expense-ratio entry of the `kpi_metrics` export `Status` column (line 730):
`'Good' if expense_ratio <= 25 else 'Warning' if expense_ratio <= 40 else
'Critical'`. -/
def export_expense_ratio_status (r : ℚ) : String :=
  if r ≤ 25 then "Good" else if r ≤ 40 then "Warning" else "Critical"

/-- Purchase-to-income-ratio entry of the `kpi_metrics` export `Status` column
(line 731): `'Optimal' if purchase_to_income_ratio <= 40 else 'Warning' if
purchase_to_income_ratio <= 60 else 'Critical'` — middle branch is a warning,
not inverted like the notice rule. -/
def export_purchase_ratio_status (q : ℚ) : String :=
  if q ≤ 40 then "Optimal" else if q ≤ 60 then "Warning" else "Critical"

/-! ## Revenue quantile segmentation (`pd.qcut`, lines 900-902) -/

/-- Insertion step of an ascending sort. -/
def insertSorted (x : ℚ) : List ℚ → List ℚ
  | [] => [x]
  | y :: ys => if x ≤ y then x :: y :: ys else y :: insertSorted x ys

/-- Ascending sort of a column (the order in which quantiles read the data). -/
def sortAsc (l : List ℚ) : List ℚ := l.foldr insertSorted []

/-- The linear-interpolation quantile of a sorted non-empty list, as
`numpy.percentile`/`Series.quantile` compute it: the virtual index is
`h = p*(n-1)`, and the value interpolates between the order statistics at
`⌊h⌋` and `⌊h⌋+1`. -/
def quantileLin (s : List ℚ) (p : ℚ) : ℚ :=
  let n := s.length
  let h : ℚ := p * ((n : ℚ) - 1)
  let j : ℕ := (⌊h⌋).toNat
  let g : ℚ := h - (⌊h⌋ : ℚ)
  let xj := s.getD j 0
  xj + g * (s.getD (j + 1) xj - xj)

/-- The four labels of line 902. -/
def qcutLabels : List String := ["Low", "Medium-Low", "Medium-High", "High"]

/-- Bin assignment of `pd.qcut(..., q=4)`: bins are right-closed on the
quartile edges `e1 ≤ e2 ≤ e3`, and the lowest bin includes the minimum. -/
def assignSegment (e1 e2 e3 x : ℚ) : String :=
  if x ≤ e1 then "Low"
  else if x ≤ e2 then "Medium-Low"
  else if x ≤ e3 then "Medium-High"
  else "High"

/-- `pd.qcut(column, q=4, labels=["Low", "Medium-Low", "Medium-High", "High"])`:
computes the five quartile edges from the data itself and raises
`ValueError: Bin edges must be unique` when two edges coincide. -/
def qcut4 (l : List ℚ) : Except String (List String) :=
  if l.isEmpty then .error "Cannot qcut empty data" else
  let s := sortAsc l
  let e0 := quantileLin s 0
  let e1 := quantileLin s (1/4)
  let e2 := quantileLin s (1/2)
  let e3 := quantileLin s (3/4)
  let e4 := quantileLin s 1
  if e0 < e1 ∧ e1 < e2 ∧ e2 < e3 ∧ e3 < e4 then
    .ok (l.map fun x => assignSegment e1 e2 e3 x)
  else .error "Bin edges must be unique"

/-- `filtered_data["daily_income"]["revenue_segment"]` (line 900): the qcut of
the filtered revenue column. -/
def revenue_segment (v : FilteredView) : Except String (List String) :=
  qcut4 (v.daily_income.map fun r => r.total)

/-! ## Forecast-engine training loop (ML tab, lines 1399-1476) -/

/-- `Prophet(...).fit(df)` as observed through success/failure: the library
raises when the training frame has fewer than 2 rows, and otherwise fits a
model over the series.  The numeric content of the fitted model lives in the
third-party library and is outside the claims; the fitted history is carried
as a witness of success. -/
def prophetFit (series : List ℚ) : Except String (List ℚ) :=
  if series.length < 2 then .error "Dataframe has less than 2 non-NaN rows." else .ok series

/-- `filtered_data["expenses"]` grouped by date, summed and reindexed onto one
daily-income date, `.fillna(0)` (source lines 1404, 1407): a date with no
expense rows contributes 0, and a `NaT` daily-income date has no group. -/
def expensesOnDate (v : FilteredView) (d? : Option ℤ) : ℚ :=
  match d? with
  | some d => ((v.expenses.filter fun r => r.date == some d).map fun r => r.expenseAmount).sum
  | none => 0

/-- Inventory purchases summed onto one daily-income date (lines 1405, 1408). -/
def purchasesOnDate (v : FilteredView) (d? : Option ℤ) : ℚ :=
  match d? with
  | some d => ((v.inventory.filter fun r => r.date == some d).map fun r => r.invoiceAmount).sum
  | none => 0

/-- The four tracked metric series of `metrics_to_predict` (lines 1399-1426),
all of length `v.daily_income.length`. -/
def metricsToPredict (v : FilteredView) : List (String × List ℚ) :=
  let revenue := v.daily_income.map fun r => r.total
  let expenses := v.daily_income.map fun r => expensesOnDate v r.date
  let purchases := v.daily_income.map fun r => purchasesOnDate v r.date
  let netProfit := List.zipWith (fun a b => a - b) (List.zipWith (fun a b => a - b) revenue expenses) purchases
  [("Revenue", revenue), ("Expenses", expenses), ("Purchases", purchases),
   ("Net Profit", netProfit)]

/-- The training loop (lines 1431-1476): the four models are fit one after the
other in a plain `for` loop with no exception handling, so a raise from any
`fit` aborts the whole loop and discards every result. -/
def trainModels : List (String × List ℚ) → Except String (List (String × List ℚ))
  | [] => .ok []
  | (name, series) :: rest => do
      let f ← prophetFit series
      let others ← trainModels rest
      pure ((name, f) :: others)

/-- The forecast step of the ML tab on a filtered view. -/
def runForecastStep (v : FilteredView) : Except String (List (String × List ℚ)) :=
  trainModels (metricsToPredict v)

/-! ## Concrete tables used in evaluations and witnesses -/

/-- The empty filtered view (every filter matched nothing). -/
def emptyView : FilteredView := { daily_income := [], inventory := [], expenses := [] }

/-- A raw daily-income row whose `Date` cell holds a non-null value that fails
to parse as a calendar date. -/
def badDailyRaw : RawDailyRow :=
  { rawDate := .invalid, total := some 100, cash := some 60, visa := some 30,
    dueAmount := some 10, grossIncomeSys := some 90 }

/-- A raw daily-income row with a well-formed date. -/
def goodDailyRaw : RawDailyRow :=
  { rawDate := .valid 19723, total := some 1000, cash := some 600, visa := some 300,
    dueAmount := some 100, grossIncomeSys := some 950 }

/-- A raw expense row with a well-formed date. -/
def goodExpenseRaw : RawExpenseRow :=
  { rawDate := .valid 19723, expenseType := "Rent", expenseAmount := some 120 }

/-- A raw inventory row with a well-formed date. -/
def goodInventoryRaw : RawInventoryRow :=
  { rawDate := .valid 19723, invoiceCompany := "Acme", inventoryType := "Medicine",
    invoiceAmount := some 300, creditLimit := some 5000 }

/-- A loaded daily-income row holding only a date and a revenue total. -/
def mkDailyRow (dte : ℤ) (t : ℚ) : LoadedDailyRow :=
  { rawDate := .valid dte, date := some dte, total := t, cash := 0, visa := 0,
    dueAmount := 0, grossIncomeSys := 0, net_income := none, deficit := 0 }

/-- A filtered view whose daily-income revenue column is the given list. -/
def viewOfTotals (ts : List ℚ) : FilteredView :=
  { daily_income := ts.map fun t => mkDailyRow 0 t, inventory := [], expenses := [] }

/-- Revenue column with four distinct values whose quartile edges collide. -/
def qcutDataA : List ℚ := [1, 1, 1, 1, 1, 1, 1, 2, 3, 4]

/-- Revenue column with five distinct values, distinct quartile edges, and an
empty `Medium-High` bucket. -/
def qcutDataB : List ℚ := [0, 1, 2, 2, 3, 10]

/-- A filtered view with a single daily-income row. -/
def oneRowView : FilteredView :=
  { daily_income := [mkDailyRow 19723 1000], inventory := [], expenses := [] }

/-! ## C1 -/

/-- C1: evaluation of the overview-tab ratios on a filter selection whose
daily-income view is empty (`total_income = 0`).  The guarded ratios report 0
as claimed, but the four payment-methods percentages of lines 285-297 divide
by `total_income` unguarded and evaluate to NaN (`none`), not 0. -/
theorem overview_zero_income_ratio_eval :
    total_income emptyView = 0 ∧
    expenses_pct_of_revenue emptyView = 0 ∧
    purchases_pct_of_revenue emptyView = 0 ∧
    net_profit_margin_pct emptyView = 0 ∧
    money_deficit_pct emptyView = 0 ∧
    profit_margin emptyView = 0 ∧
    expense_ratio emptyView = 0 ∧
    purchase_to_income_ratio emptyView = 0 ∧
    cash_pct_overview emptyView = none ∧
    visa_pct_overview emptyView = none ∧
    due_pct_overview emptyView = none ∧
    sys_income_pct_overview emptyView = none := by
  decide

/-! ## C4 -/

/-- C4 counterexample: the inventory-purchases sheet's column names are only
whitespace-trimmed by `load_data`, not case-folded as the claim states; the
claimed trim-plus-case-fold normalization gives a different result. -/
theorem inventory_columns_not_casefolded :
    normalize_inventory_columns [" Invoice Amount "] = ["Invoice Amount"] ∧
    spec_normalize_columns [" Invoice Amount "] = ["invoice amount"] ∧
    normalize_inventory_columns [" Invoice Amount "] ≠
      spec_normalize_columns [" Invoice Amount "] := by
  decide

/-- C4 amended: `load_data` normalizes the reference (lists) sheet's column
names by whitespace-trim plus case-fold, the inventory-purchases and expenses
sheets' by whitespace-trim only, and leaves the daily-income sheet's column
names unmodified. -/
theorem column_normalization_amended (cols : List String) :
    normalize_lists_columns cols = spec_normalize_columns cols ∧
    normalize_inventory_columns cols = cols.map pyStrip ∧
    normalize_expenses_columns cols = cols.map pyStrip ∧
    normalize_daily_income_columns cols = cols := by
  refine ⟨?_, rfl, rfl, rfl⟩
  simp [normalize_lists_columns, spec_normalize_columns]

/-! ## C5 -/

/-- C5 counterexample: the program has two health classifications of the same
three ratios, and the `kpi_metrics` export `Status` column contradicts the
claimed boundaries.  At profit margin 17 the notice rule is critical (as the
claim states, 17 < 20) but the export status is `Needs Improvement`, not
`Critical`; at margin 35 the claim says warning but the export says `Healthy`;
at expense ratio 45 the claim says warning (30 < 45 ≤ 50) but the export says
`Critical`; at purchase ratio 50 the claim says healthy (40 < 50 ≤ 60) but the
export says `Warning`. -/
theorem export_status_contradicts_claimed_boundaries :
    profit_margin_status 17 = .critical ∧
    export_profit_margin_status 17 = "Needs Improvement" ∧
    export_profit_margin_status 17 ≠ "Critical" ∧
    profit_margin_status 35 = .warning ∧
    export_profit_margin_status 35 = "Healthy" ∧
    expense_ratio_status 45 = .warning ∧
    export_expense_ratio_status 45 = "Critical" ∧
    purchase_ratio_status 50 = .healthy ∧
    export_purchase_ratio_status 50 = "Warning" := by
  decide

/-- C5 amended: the claimed boundaries are exact for the critical-KPI notice
classification (profit margin critical iff < 20, warning iff 20 ≤ m < 50,
healthy iff ≥ 50; expense ratio critical iff > 50, warning iff 30 < r ≤ 50,
healthy otherwise; purchase-to-income ratio critical iff > 60, healthy iff
40 < q ≤ 60, warning otherwise), while the `kpi_metrics` export `Status`
column classifies the same ratios with different, likewise exact boundaries
(profit: Healthy iff ≥ 30, Needs Improvement iff 15 ≤ m < 30, Critical iff
< 15; expense: Good iff ≤ 25, Warning iff 25 < r ≤ 40, Critical iff > 40;
purchase: Optimal iff ≤ 40, Warning iff 40 < q ≤ 60, Critical iff > 60,
with no inverted middle branch). -/
theorem health_status_boundaries_amended (m r q : ℚ) :
    (profit_margin_status m = .critical ↔ m < 20) ∧
    (profit_margin_status m = .warning ↔ 20 ≤ m ∧ m < 50) ∧
    (profit_margin_status m = .healthy ↔ 50 ≤ m) ∧
    (expense_ratio_status r = .critical ↔ 50 < r) ∧
    (expense_ratio_status r = .warning ↔ 30 < r ∧ r ≤ 50) ∧
    (expense_ratio_status r = .healthy ↔ r ≤ 30) ∧
    (purchase_ratio_status q = .critical ↔ 60 < q) ∧
    (purchase_ratio_status q = .healthy ↔ 40 < q ∧ q ≤ 60) ∧
    (purchase_ratio_status q = .warning ↔ q ≤ 40) ∧
    (export_profit_margin_status m = "Healthy" ↔ 30 ≤ m) ∧
    (export_profit_margin_status m = "Needs Improvement" ↔ 15 ≤ m ∧ m < 30) ∧
    (export_profit_margin_status m = "Critical" ↔ m < 15) ∧
    (export_expense_ratio_status r = "Good" ↔ r ≤ 25) ∧
    (export_expense_ratio_status r = "Warning" ↔ 25 < r ∧ r ≤ 40) ∧
    (export_expense_ratio_status r = "Critical" ↔ 40 < r) ∧
    (export_purchase_ratio_status q = "Optimal" ↔ q ≤ 40) ∧
    (export_purchase_ratio_status q = "Warning" ↔ 40 < q ∧ q ≤ 60) ∧
    (export_purchase_ratio_status q = "Critical" ↔ 60 < q) := by
  unfold profit_margin_status expense_ratio_status purchase_ratio_status
    export_profit_margin_status export_expense_ratio_status export_purchase_ratio_status
  refine ⟨?_, ?_, ?_, ?_, ?_, ?_, ?_, ?_, ?_, ?_, ?_, ?_, ?_, ?_, ?_, ?_, ?_, ?_⟩ <;>
    split_ifs <;> simp_all <;> linarith

/-! ## C7 -/

/-- C7: the inventory-type and company category filters change only the
filtered inventory table, the expense-type filter changes only the filtered
expense table, and no category filter ever restricts the daily-income
table. -/
theorem category_filters_frame_effect (st sc se : Option String) (fd : FilteredView) :
    (applyCategoryFilters st sc se fd).daily_income = fd.daily_income ∧
    (applyCategoryFilters st sc none fd).expenses = fd.expenses ∧
    (applyCategoryFilters none none se fd).inventory = fd.inventory := by
  cases st <;> cases sc <;> cases se <;> simp [applyCategoryFilters]

/-! ## C2 -/

/-- Every row produced by the derivation pass is a `deriveRow` of some raw row,
so its `date` column is the parse of its `Date` cell. -/
theorem deriveDaily_date_eq_parse (d : List RawDailyRow) (e : List RawExpenseRow)
    (v : List RawInventoryRow) :
    ∀ r ∈ deriveDaily d e v, r.date = parseDate r.rawDate := by
  induction d generalizing e v with
  | nil => simp [deriveDaily]
  | cons hd tl ih =>
      intro r hr
      simp only [deriveDaily, List.mem_cons] at hr
      rcases hr with hr | hr
      · subst hr; simp [deriveRow]
      · exact ih _ _ r hr

/-- C2 counterexample: a daily-income row whose `Date` cell is non-null but
unparseable is not discarded by `load_data` (the drop is
`dropna(subset=["Date"])` on the original column, not on the coerced `date`
column), and it survives with a null parsed date. -/
theorem load_keeps_unparseable_date_row :
    (loadDailyIncome [badDailyRaw] [] []).length = 1 ∧
    (loadDailyIncome [badDailyRaw] [] []).map (fun r => r.date) = [none] := by
  decide

/-- C2 amended: after `load_data`, every surviving row of each of the three
transactional tables has a non-null original `Date` cell, and its parsed
`date` column is exactly the (possibly failed, hence possibly null) parse of
that cell; every row whose original `Date` cell is null has been discarded,
and no other row is discarded. -/
theorem load_drops_null_raw_dates (d : List RawDailyRow) (e : List RawExpenseRow)
    (v : List RawInventoryRow) :
    (∀ r ∈ loadDailyIncome d e v, r.rawDate ≠ .null ∧ r.date = parseDate r.rawDate) ∧
    (∀ r ∈ deriveDaily d e v, r.rawDate ≠ .null → r ∈ loadDailyIncome d e v) ∧
    (∀ r ∈ loadExpenses e, r.rawDate ≠ .null ∧ r.date = parseDate r.rawDate) ∧
    (∀ r ∈ loadInventoryPurchases v, r.rawDate ≠ .null ∧ r.date = parseDate r.rawDate) := by
  refine ⟨?_, ?_, ?_, ?_⟩
  · intro r hr
    rw [loadDailyIncome, List.mem_filter] at hr
    refine ⟨by simpa using hr.2, deriveDaily_date_eq_parse d e v r hr.1⟩
  · intro r hr hnull
    rw [loadDailyIncome, List.mem_filter]
    exact ⟨hr, by simpa using hnull⟩
  · intro r hr
    rw [loadExpenses, List.mem_filter] at hr
    rcases List.mem_map.1 hr.1 with ⟨raw, _, hmk⟩
    exact ⟨by simpa using hr.2, by rw [← hmk]⟩
  · intro r hr
    rw [loadInventoryPurchases, List.mem_filter] at hr
    rcases List.mem_map.1 hr.1 with ⟨raw, _, hmk⟩
    exact ⟨by simpa using hr.2, by rw [← hmk]⟩

/-- C2 amended, instantiated: a row with a valid date survives the load of a
one-row workbook and its parsed date is the parse of its `Date` cell. -/
theorem load_drops_null_raw_dates_witness :
    (deriveRow goodDailyRaw none none).rawDate ≠ .null ∧
    (deriveRow goodDailyRaw none none).date =
      parseDate (deriveRow goodDailyRaw none none).rawDate :=
  (load_drops_null_raw_dates [goodDailyRaw] [] []).1 (deriveRow goodDailyRaw none none)
    (by simp [loadDailyIncome, deriveDaily, deriveRow, goodDailyRaw])

/-! ## C3 -/

/-- Row `i` of the derivation pass is `deriveRow` of row `i` of the raw
daily-income sheet with the positionally aligned (index-aligned) rows of the
expenses and inventory sheets. -/
theorem deriveDaily_getElem? (d : List RawDailyRow) (e : List RawExpenseRow)
    (v : List RawInventoryRow) (i : ℕ) :
    (deriveDaily d e v)[i]? = (d[i]?).map fun r => deriveRow r e[i]? v[i]? := by
  induction d generalizing e v i with
  | nil => simp [deriveDaily]
  | cons hd tl ih =>
      cases i with
      | zero => simp [deriveDaily, List.head?_eq_getElem?]
      | succ n =>
          simp only [deriveDaily, List.getElem?_cons_succ, ih]
          cases e <;> cases v <;> simp

/-- C3: at load time, the derived columns of daily-income row `i` satisfy
`net_income = Total[i] - ExpenseAmount[i] - InvoiceAmount[i]` with the
expense and purchase values taken from row `i` of the other two sheets by
position, and `deficit = Total[i] - GrossIncomeSys[i]` (numeric cells read
through the zero-fill of `load_data`). -/
theorem net_income_deficit_positional (d : List RawDailyRow) (e : List RawExpenseRow)
    (v : List RawInventoryRow) (i : ℕ) (rd : RawDailyRow) (re : RawExpenseRow)
    (rv : RawInventoryRow) (hd : d[i]? = some rd) (he : e[i]? = some re)
    (hv : v[i]? = some rv) :
    ∃ row, (deriveDaily d e v)[i]? = some row ∧
      row.net_income = some (fillna rd.total - fillna re.expenseAmount -
        fillna rv.invoiceAmount) ∧
      row.deficit = fillna rd.total - fillna rd.grossIncomeSys := by
  refine ⟨deriveRow rd (some re) (some rv), ?_, ?_, ?_⟩ <;>
    simp [deriveDaily_getElem?, hd, he, hv, deriveRow]

/-- C3 instantiated on a concrete one-row workbook. -/
theorem net_income_deficit_positional_witness :
    ∃ row, (deriveDaily [goodDailyRaw] [goodExpenseRaw] [goodInventoryRaw])[0]? = some row ∧
      row.net_income = some (fillna goodDailyRaw.total - fillna goodExpenseRaw.expenseAmount -
        fillna goodInventoryRaw.invoiceAmount) ∧
      row.deficit = fillna goodDailyRaw.total - fillna goodDailyRaw.grossIncomeSys :=
  net_income_deficit_positional [goodDailyRaw] [goodExpenseRaw] [goodInventoryRaw] 0
    goodDailyRaw goodExpenseRaw goodInventoryRaw rfl rfl rfl

/-! ## C9 -/

/-- Membership in the month-branch boolean mask: a row passes iff its date is
non-null, falls in month `m`, and lies in the inclusive window. -/
theorem mem_filterByMonthAndRange {α : Type} (m s e : ℤ) (dateOf : α → Option ℤ)
    (t : List α) (r : α) :
    r ∈ filterByMonthAndRange m s e dateOf t ↔
      r ∈ t ∧ ∃ dte, dateOf r = some dte ∧ dateMonth dte = m ∧ s ≤ dte ∧ dte ≤ e := by
  rw [filterByMonthAndRange, List.mem_filter]
  cases h : dateOf r with
  | none => simp [h]
  | some dte => simp [h, and_assoc]

/-- Membership in the no-month boolean mask. -/
theorem mem_filterByRange {α : Type} (s e : ℤ) (dateOf : α → Option ℤ)
    (t : List α) (r : α) :
    r ∈ filterByRange s e dateOf t ↔
      r ∈ t ∧ ∃ dte, dateOf r = some dte ∧ s ≤ dte ∧ dte ≤ e := by
  rw [filterByRange, List.mem_filter]
  cases h : dateOf r with
  | none => simp [h]
  | some dte => simp [h, and_assoc]

/-- C9: with a month filter `m` and a date window `[s, e]` both active, a row
of any of the three transactional tables is kept iff its date's calendar
month equals `m` and `s ≤ date ≤ e` (the conjunction of both predicates), and
each filtered table is a sublist of its source table (ordering preserved). -/
theorem month_filter_conjunction (m s e : ℤ) (daily : List LoadedDailyRow)
    (inv : List LoadedInventoryRow) (exps : List LoadedExpenseRow) :
    (∀ r : LoadedDailyRow, r ∈ (monthFilteredData m s e daily inv exps).daily_income ↔
        r ∈ daily ∧ ∃ dte, r.date = some dte ∧ dateMonth dte = m ∧ s ≤ dte ∧ dte ≤ e) ∧
    (∀ r : LoadedInventoryRow, r ∈ (monthFilteredData m s e daily inv exps).inventory ↔
        r ∈ inv ∧ ∃ dte, r.date = some dte ∧ dateMonth dte = m ∧ s ≤ dte ∧ dte ≤ e) ∧
    (∀ r : LoadedExpenseRow, r ∈ (monthFilteredData m s e daily inv exps).expenses ↔
        r ∈ exps ∧ ∃ dte, r.date = some dte ∧ dateMonth dte = m ∧ s ≤ dte ∧ dte ≤ e) ∧
    (monthFilteredData m s e daily inv exps).daily_income.Sublist daily ∧
    (monthFilteredData m s e daily inv exps).inventory.Sublist inv ∧
    (monthFilteredData m s e daily inv exps).expenses.Sublist exps := by
  refine ⟨fun r => mem_filterByMonthAndRange m s e _ daily r,
    fun r => mem_filterByMonthAndRange m s e _ inv r,
    fun r => mem_filterByMonthAndRange m s e _ exps r,
    List.filter_sublist _, List.filter_sublist _, List.filter_sublist _⟩

/-! ## C10 -/

/-- C10: every named date preset resolves its window against the data: the end
date is the maximum date present in the daily-income table (never a wall-clock
input, which `resolveDatePreset` does not even receive), the start date is
end minus 7/30/90 days for the Last-N-Days presets, January 1 of end's year
for Year to Date, and the minimum daily-income date for All Time; and the
resulting range filter keeps a row iff `start ≤ date ≤ end`, inclusive on both
ends, on each of the three tables (ordering preserved). -/
instance : Std.Antisymm ((· : ℤ) ≤ ·) := ⟨fun h1 h2 => le_antisymm h1 h2⟩

theorem date_preset_resolution (daily : List LoadedDailyRow)
    (hne : dateColumn daily ≠ []) :
    (∀ p : DatePreset, (resolveDatePreset p daily).2 ∈ dateColumn daily ∧
        ∀ dte ∈ dateColumn daily, dte ≤ (resolveDatePreset p daily).2) ∧
    (resolveDatePreset .last7Days daily).1 = (resolveDatePreset .last7Days daily).2 - 7 ∧
    (resolveDatePreset .last30Days daily).1 = (resolveDatePreset .last30Days daily).2 - 30 ∧
    (resolveDatePreset .last90Days daily).1 = (resolveDatePreset .last90Days daily).2 - 90 ∧
    (resolveDatePreset .yearToDate daily).1 =
      daysFromCivil (dateYear (resolveDatePreset .yearToDate daily).2) 1 1 ∧
    ((resolveDatePreset .allTime daily).1 ∈ dateColumn daily ∧
      ∀ dte ∈ dateColumn daily, (resolveDatePreset .allTime daily).1 ≤ dte) ∧
    (∀ (s e : ℤ) (inv : List LoadedInventoryRow) (exps : List LoadedExpenseRow),
      (∀ r : LoadedDailyRow, r ∈ (rangeFilteredData s e daily inv exps).daily_income ↔
          r ∈ daily ∧ ∃ dte, r.date = some dte ∧ s ≤ dte ∧ dte ≤ e) ∧
      (∀ r : LoadedInventoryRow, r ∈ (rangeFilteredData s e daily inv exps).inventory ↔
          r ∈ inv ∧ ∃ dte, r.date = some dte ∧ s ≤ dte ∧ dte ≤ e) ∧
      (∀ r : LoadedExpenseRow, r ∈ (rangeFilteredData s e daily inv exps).expenses ↔
          r ∈ exps ∧ ∃ dte, r.date = some dte ∧ s ≤ dte ∧ dte ≤ e) ∧
      (rangeFilteredData s e daily inv exps).daily_income.Sublist daily ∧
      (rangeFilteredData s e daily inv exps).inventory.Sublist inv ∧
      (rangeFilteredData s e daily inv exps).expenses.Sublist exps) := by
  have hmax : ∃ mx, (dateColumn daily).max? = some mx := by
    cases h : (dateColumn daily).max? with
    | none => exact absurd (List.max?_eq_none_iff.1 h) hne
    | some mx => exact ⟨mx, rfl⟩
  obtain ⟨mx, hmx⟩ := hmax
  have hmaxspec := (List.max?_eq_some_iff (fun a => le_refl a) max_choice
    (fun a b c => max_le_iff)).1 hmx
  have hend : ∀ p : DatePreset, (resolveDatePreset p daily).2 = mx := by
    intro p
    cases p <;> simp [resolveDatePreset, hmx]
  have hmin : ∃ mn, (dateColumn daily).min? = some mn := by
    cases h : (dateColumn daily).min? with
    | none => exact absurd (List.min?_eq_none_iff.1 h) hne
    | some mn => exact ⟨mn, rfl⟩
  obtain ⟨mn, hmn⟩ := hmin
  have hminspec := (List.min?_eq_some_iff (fun a => le_refl a) min_choice
    (fun a b c => le_min_iff)).1 hmn
  refine ⟨?_, ?_, ?_, ?_, ?_, ?_, ?_⟩
  · intro p
    rw [hend p]
    exact ⟨hmaxspec.1, hmaxspec.2⟩
  · simp [resolveDatePreset, hmx]
  · simp [resolveDatePreset, hmx]
  · simp [resolveDatePreset, hmx]
  · simp [resolveDatePreset, hmx]
  · have : (resolveDatePreset .allTime daily).1 = mn := by
      simp [resolveDatePreset, hmn]
    rw [this]
    exact ⟨hminspec.1, hminspec.2⟩
  · intro s e inv exps
    exact ⟨fun r => mem_filterByRange s e _ daily r,
      fun r => mem_filterByRange s e _ inv r,
      fun r => mem_filterByRange s e _ exps r,
      List.filter_sublist _, List.filter_sublist _, List.filter_sublist _⟩

/-- C10 instantiated on a concrete two-day daily-income table. -/
theorem date_preset_resolution_witness :
    (resolveDatePreset .last7Days [mkDailyRow 19723 1000, mkDailyRow 19724 900]).2 ∈
      dateColumn [mkDailyRow 19723 1000, mkDailyRow 19724 900] ∧
    (resolveDatePreset .last7Days [mkDailyRow 19723 1000, mkDailyRow 19724 900]).1 =
      (resolveDatePreset .last7Days [mkDailyRow 19723 1000, mkDailyRow 19724 900]).2 - 7 :=
  ⟨((date_preset_resolution [mkDailyRow 19723 1000, mkDailyRow 19724 900]
      (by decide)).1 .last7Days).1,
    (date_preset_resolution [mkDailyRow 19723 1000, mkDailyRow 19724 900]
      (by decide)).2.1⟩

/-! ## C6 -/

/-- C6 counterexample: on a filtered view whose daily-income history has a
single row, all four metric series have fewer than 2 points; the training
loop of lines 1431-1476 has no per-metric exception handling, so the first
`fit` raises and no forecast is produced for any metric — the other three
metrics are not "still produced". -/
theorem forecast_loop_aborts_all :
    runForecastStep oneRowView = .error "Dataframe has less than 2 non-NaN rows." ∧
    ∀ results, runForecastStep oneRowView ≠ .ok results := by
  have h1 : runForecastStep oneRowView =
      .error "Dataframe has less than 2 non-NaN rows." := by
    have hfit : prophetFit (oneRowView.daily_income.map fun r => r.total) =
        .error "Dataframe has less than 2 non-NaN rows." := by
      rw [prophetFit, if_pos (by decide)]
    simp only [runForecastStep, metricsToPredict, trainModels, hfit]
    rfl
  exact ⟨h1, fun results hok => by simp [h1] at hok⟩

/-- C6 amended: the four tracked metric series all have exactly the filtered
daily-income view's length, so none of them can fall short of the minimum
viable 2 points alone; and when the shared history has fewer than 2 points
the first Prophet fit raises, the unhandled exception aborts the whole
training loop, and no forecast is produced for any of the four metrics (there
is no per-metric InsufficientHistory degradation). -/
theorem forecast_insufficient_history_aborts (v : FilteredView)
    (h : v.daily_income.length < 2) :
    (∀ p ∈ metricsToPredict v, p.2.length = v.daily_income.length) ∧
    runForecastStep v = .error "Dataframe has less than 2 non-NaN rows." := by
  constructor
  · intro p hp
    simp only [metricsToPredict, List.mem_cons, List.not_mem_nil, or_false] at hp
    rcases hp with rfl | rfl | rfl | rfl <;> simp
  · have hfit : prophetFit (v.daily_income.map fun r => r.total) =
        .error "Dataframe has less than 2 non-NaN rows." := by
      rw [prophetFit, if_pos (by simpa using h)]
    simp only [runForecastStep, metricsToPredict, trainModels, hfit]
    rfl

/-- C6 amended, instantiated on the empty filtered view. -/
theorem forecast_insufficient_history_aborts_witness :
    (∀ p ∈ metricsToPredict emptyView, p.2.length = emptyView.daily_income.length) ∧
    runForecastStep emptyView = .error "Dataframe has less than 2 non-NaN rows." :=
  forecast_insufficient_history_aborts emptyView (by decide)

/-! ## C8 -/

/-- Each element is assigned one of the four labels. -/
theorem assignSegment_mem (e1 e2 e3 x : ℚ) : assignSegment e1 e2 e3 x ∈ qcutLabels := by
  unfold assignSegment qcutLabels
  split_ifs <;> simp

/-- The four per-label counts of an assignment partition the rows. -/
theorem count_assignSegment_total (e1 e2 e3 : ℚ) (xs : List ℚ) :
    (xs.map fun x => assignSegment e1 e2 e3 x).count "Low" +
      (xs.map fun x => assignSegment e1 e2 e3 x).count "Medium-Low" +
      (xs.map fun x => assignSegment e1 e2 e3 x).count "Medium-High" +
      (xs.map fun x => assignSegment e1 e2 e3 x).count "High" = xs.length := by
  induction xs with
  | nil => simp
  | cons x xs ih =>
      simp only [List.map_cons, List.count_cons]
      have hmem : assignSegment e1 e2 e3 x = "Low" ∨ assignSegment e1 e2 e3 x = "Medium-Low" ∨
          assignSegment e1 e2 e3 x = "Medium-High" ∨ assignSegment e1 e2 e3 x = "High" := by
        unfold assignSegment
        split_ifs <;> simp
      rcases hmem with h | h | h | h <;> rw [h] <;> simp <;> omega

/-- When the five quartile edges of a non-empty column are pairwise distinct,
`pd.qcut` succeeds and labels every row by its right-closed quartile bin. -/
theorem qcut4_ok (l : List ℚ) (hne : l ≠ [])
    (hedges : quantileLin (sortAsc l) 0 < quantileLin (sortAsc l) (1/4) ∧
      quantileLin (sortAsc l) (1/4) < quantileLin (sortAsc l) (1/2) ∧
      quantileLin (sortAsc l) (1/2) < quantileLin (sortAsc l) (3/4) ∧
      quantileLin (sortAsc l) (3/4) < quantileLin (sortAsc l) 1) :
    qcut4 l = .ok (l.map fun x => assignSegment (quantileLin (sortAsc l) (1/4))
      (quantileLin (sortAsc l) (1/2)) (quantileLin (sortAsc l) (3/4)) x) := by
  unfold qcut4
  rw [if_neg (by simpa using hne)]
  dsimp only
  rw [if_pos hedges]

/-- C8 counterexample: the claim fails in two ways on concrete filtered views.
With revenue column `[1,1,1,1,1,1,1,2,3,4]` (4 distinct values) the quartile
edges collide and `pd.qcut` raises `Bin edges must be unique`; with revenue
column `[0,1,2,2,3,10]` (5 distinct values) qcut succeeds but the
`Medium-High` segment is empty. -/
theorem revenue_segmentation_claim_fails :
    ((viewOfTotals qcutDataA).daily_income.map fun r => r.total).dedup.length = 4 ∧
    revenue_segment (viewOfTotals qcutDataA) = .error "Bin edges must be unique" ∧
    ((viewOfTotals qcutDataB).daily_income.map fun r => r.total).dedup.length = 5 ∧
    revenue_segment (viewOfTotals qcutDataB) =
      .ok ["Low", "Low", "Medium-Low", "Medium-Low", "High", "High"] ∧
    (["Low", "Low", "Medium-Low", "Medium-Low", "High", "High"] : List String).count
      "Medium-High" = 0 := by
  refine ⟨by decide, ?_, by decide, ?_, by decide⟩
  · norm_num [revenue_segment, qcut4, viewOfTotals, mkDailyRow, qcutDataA, sortAsc,
      insertSorted, quantileLin, assignSegment]
    norm_num [Int.toNat]
  · norm_num [revenue_segment, qcut4, viewOfTotals, mkDailyRow, qcutDataB, sortAsc,
      insertSorted, quantileLin, assignSegment]
    norm_num [Int.toNat]

/-- C8 amended: for a filtered daily-income view whose five quartile edges
(computed from the filtered data itself) are pairwise distinct — which at
least 4 distinct revenue values do not guarantee — the segmentation assigns
each row exactly one of the labels Low, Medium-Low, Medium-High, High, and
the four per-label counts sum to the view's row count, with no exception
raised; a labelled segment may nevertheless be empty. -/
theorem revenue_segmentation_amended (v : FilteredView)
    (hne : v.daily_income ≠ [])
    (hedges : quantileLin (sortAsc (v.daily_income.map fun r => r.total)) 0 <
        quantileLin (sortAsc (v.daily_income.map fun r => r.total)) (1/4) ∧
      quantileLin (sortAsc (v.daily_income.map fun r => r.total)) (1/4) <
        quantileLin (sortAsc (v.daily_income.map fun r => r.total)) (1/2) ∧
      quantileLin (sortAsc (v.daily_income.map fun r => r.total)) (1/2) <
        quantileLin (sortAsc (v.daily_income.map fun r => r.total)) (3/4) ∧
      quantileLin (sortAsc (v.daily_income.map fun r => r.total)) (3/4) <
        quantileLin (sortAsc (v.daily_income.map fun r => r.total)) 1) :
    ∃ labs, revenue_segment v = .ok labs ∧
      labs.length = v.daily_income.length ∧
      (∀ lab ∈ labs, lab ∈ qcutLabels) ∧
      labs.count "Low" + labs.count "Medium-Low" + labs.count "Medium-High" +
        labs.count "High" = v.daily_income.length := by
  have hcol : (v.daily_income.map fun r => r.total) ≠ [] := by
    simpa using hne
  refine ⟨_, by rw [revenue_segment]; exact qcut4_ok _ hcol hedges, ?_, ?_, ?_⟩
  · simp
  · intro lab hlab
    rcases List.mem_map.1 hlab with ⟨x, _, hx⟩
    exact hx ▸ assignSegment_mem _ _ _ x
  · rw [count_assignSegment_total]
    simp

/-- C8 amended, instantiated on the six-row view with revenue column
`[0,1,2,2,3,10]`. -/
theorem revenue_segmentation_amended_witness :
    ∃ labs, revenue_segment (viewOfTotals qcutDataB) = .ok labs ∧
      labs.length = (viewOfTotals qcutDataB).daily_income.length ∧
      (∀ lab ∈ labs, lab ∈ qcutLabels) ∧
      labs.count "Low" + labs.count "Medium-Low" + labs.count "Medium-High" +
        labs.count "High" = (viewOfTotals qcutDataB).daily_income.length :=
  revenue_segmentation_amended (viewOfTotals qcutDataB) (by decide)
    (by norm_num [viewOfTotals, mkDailyRow, qcutDataB, sortAsc, insertSorted, quantileLin]
        norm_num [Int.toNat])

end Pharmacy
